import Mathlib

/-!
# Domice_Back — verification of the dormitory-management backend

Shallow embedding of the Domice backend (Express + Supabase, files
`src/server.js` and `src/unnamed/part_001`) in Lean 4, together with
theorems settling the specification claims.

Conventions:
* JS strings are Lean `String`s, except where character-level processing
  matters (the QR wire format, e-mail splitting); there they are `List Char`.
* Node `Buffer`s are `List Nat` of byte values (< 256).
* Fallible JS code (`throw`/`catch`) is `Except` / `Option`.
* The external Supabase store is an explicit list of rows threaded through
  each handler; a handler returns `(response, new store)`.
* External libraries (Node `crypto`, `jsonwebtoken`) are abstract structures
  whose contract appears as hypotheses.
-/

namespace Domice

/-! ## JS helpers -/

/-- JS `x || d` for numbers, where `none` stands for `NaN`
(`Number(undefined)` and `Number` of a non-numeric string are `NaN`;
both `NaN` and `0` are falsy). -/
def jsOrNum (v : Option Int) (d : Int) : Int :=
  match v with
  | none => d
  | some x => if x = 0 then d else x

/-- JS `s1 || s2` for nullable strings: `null`/`undefined` (`none`) and the
empty string are falsy. -/
def jsOrStr (v : Option String) (d : String) : String :=
  match v with
  | none => d
  | some s => if s = "" then d else s

/-! ## C8 — result-size limit

`const limit = Math.min(Number(req.query.limit) || 20, 50);`
(`src/server.js` line 140, `src/unnamed/part_001` line 1289 and elsewhere).
The input is the JS number value of the `limit` query parameter
(`none` = `NaN`, covering an absent parameter). -/

def queryLimitCap (raw : Option Int) : Int :=
  min (jsOrNum raw 20) 50

/-! ## Bytes and hex (Node `Buffer` with the `hex` encoding) -/

/-- Lowercase hex digit for a nibble, as produced by `Buffer.toString('hex')`. -/
def hexDigitChar (n : Nat) : Char :=
  if n < 10 then Char.ofNat (48 + n) else Char.ofNat (87 + n)

def byteToHex (b : Nat) : List Char :=
  [hexDigitChar (b / 16), hexDigitChar (b % 16)]

def hexEncode : List Nat → List Char
  | [] => []
  | b :: bs => byteToHex b ++ hexEncode bs

def hexDigitVal (c : Char) : Option Nat :=
  if 48 ≤ c.toNat ∧ c.toNat ≤ 57 then some (c.toNat - 48)
  else if 97 ≤ c.toNat ∧ c.toNat ≤ 102 then some (c.toNat - 87)
  else if 65 ≤ c.toNat ∧ c.toNat ≤ 70 then some (c.toNat - 55)
  else none

/-- Node `Buffer.from(s, 'hex')`: decode hex pairs, truncating at the first
invalid pair or at an odd-length tail. -/
def hexDecode : List Char → List Nat
  | c1 :: c2 :: rest =>
    match hexDigitVal c1, hexDigitVal c2 with
    | some h, some l => (16 * h + l) :: hexDecode rest
    | _, _ => []
  | _ => []

/-- JS `String.prototype.split` with a one-character separator. -/
def splitOnChar (sep : Char) : List Char → List (List Char)
  | [] => [[]]
  | c :: cs =>
    match splitOnChar sep cs with
    | [] => [[]]
    | p :: ps => if c = sep then [] :: p :: ps else (c :: p) :: ps

/-- JS `Array.prototype.join` with a one-character separator. -/
def joinWithChar (sep : Char) : List (List Char) → List Char
  | [] => []
  | [p] => p
  | p :: q :: ps => p ++ sep :: joinWithChar sep (q :: ps)

/-! ## C2 — QR check-in codec

`encrypt` / `decrypt` from `src/unnamed/part_001` lines 1226-1251. The
underlying AES-256-CBC cipher (Node `crypto`, external) is an abstract
`Cipher`; its correctness contract appears as hypotheses of the theorems.
`enc key iv plaintext` gives the ciphertext bytes; `dec` returns `none` when
deciphering throws (e.g. a padding failure). -/

structure Cipher where
  enc : List Nat → List Nat → List Nat → List Nat
  dec : List Nat → List Nat → List Nat → Option (List Nat)

/-- Source `encrypt`: random-IV encrypt, wire format `hex(iv):hex(ciphertext)`.
The IV (`crypto.randomBytes(IV_LENGTH)`) is an explicit argument. -/
def encrypt (C : Cipher) (key iv text : List Nat) : List Char :=
  hexEncode iv ++ ':' :: hexEncode (C.enc key iv text)

/-- Source `decrypt`: split on `':'`; fewer than two parts is the
`Invalid QR Format` error; else first part is the IV, the rest re-joined is
the ciphertext, and the decipher result is returned (or its thrown error). -/
def decrypt (C : Cipher) (key : List Nat) (text : List Char) :
    Except String (List Nat) :=
  match splitOnChar ':' text with
  | p :: q :: rest =>
    match C.dec key (hexDecode p) (hexDecode (joinWithChar ':' (q :: rest))) with
    | some d => Except.ok d
    | none => Except.error "decipher failed"
  | _ => Except.error "Invalid QR Format"

/-- A concrete `Cipher` satisfying the contract hypotheses at the witness
inputs: add the first key byte to each plaintext byte, mod 256. -/
def addCipher : Cipher where
  enc := fun key _ pt => pt.map (fun b => (b + key.headD 0) % 256)
  dec := fun key _ ct => some (ct.map (fun b => (b + 256 - key.headD 0 % 256) % 256))

/-! ## C3 — check-in time classifier

The `TIME_LIMITS` constants and the `check_type` if-chain from the
`POST /api/roomcheckins` handler (`src/unnamed/part_001` lines 1784-1804). -/

def AFTER_SCHOOL_START : Nat := 960
def AFTER_DINNER_START : Nat := 990
def AFTER_DINNER_START_ACTUAL : Nat := 1040
def RETURN_8PM_START : Nat := 1100
def RETURN_8PM_END : Nat := 1230
def LATE_START : Nat := 1230

/-- The classifier assigning a `check_type` to the minutes-since-midnight
value `totalMinutes = hour * 60 + minute`. -/
def checkTypeOf (totalMinutes : Nat) : String :=
  if totalMinutes < AFTER_SCHOOL_START then "EARLY"
  else if totalMinutes < AFTER_DINNER_START then "AFTER_SCHOOL"
  else if totalMinutes < RETURN_8PM_START then "AFTER_DINNER"
  else if totalMinutes < LATE_START then "RETURN_8PM"
  else "LATE"

/-- The five check-in categories. -/
def checkTypes : List String :=
  ["EARLY", "AFTER_SCHOOL", "AFTER_DINNER", "RETURN_8PM", "LATE"]

/-! ## Request context and response envelope -/

/-- The decoded token claims attached to `req.user` by `authenticateToken`. -/
structure AuthUser where
  id : String
  role : String
  stu_num : Option String
deriving DecidableEq, Repr

/-- Outcome of a handler: `sendOk(res, data, status)` or
`sendErr(res, code, message, status)`. -/
inductive HResp (α : Type) where
  | ok (data : α) (status : Nat)
  | err (code : String) (message : String) (status : Nat)
deriving DecidableEq, Repr

/-! ## C1 / C10 — `POST /api/roomcheckins`

The handler of `src/unnamed/part_001` lines 1747-1832. `new Date()` is an
explicit `Clock`: `isoDate` is `toISOString().split('T')[0]` (the UTC date
compared against the QR payload), `localDate` is `getTodayDateStr()` (the
local date stored in `check_date`); hours/minutes/seconds are local time.
`JSON.parse` of the decrypted plaintext (external) is the abstract
`parseJSON` argument; `none` models a parse `throw`. -/

structure Clock where
  isoDate : String
  localDate : String
  hours : Nat
  minutes : Nat
  seconds : Nat
deriving DecidableEq, Repr

/-- JS `String(n).padStart(2, "0")` for a time component. -/
def pad2 (n : Nat) : String :=
  if n < 10 then "0" ++ toString n else toString n

/-- The stored `check_time` string `HH:MM:SS`. -/
def timeString (now : Clock) : String :=
  pad2 now.hours ++ ":" ++ pad2 now.minutes ++ ":" ++ pad2 now.seconds

/-- The decrypted QR payload (built as
`{date: today, type: 'DOMICE', nonce: ...}` at generation). -/
structure QRPayload where
  date : String
  type : String
  nonce : String
deriving DecidableEq, Repr

/-- A row of the `room_checkins` table. -/
structure CheckinRow where
  user_id : String
  check_date : String
  check_time : String
  check_type : String
deriving DecidableEq, Repr

/-- The request body: `qrData` (`none` = absent/falsy, the `!qrData` test)
plus the `check_type` field a client may send (documented in the route
comment, never read by this version of the handler). -/
structure CheckinBody where
  qrData : Option (List Char)
  check_type : Option String
deriving DecidableEq, Repr

/-- The row inserted on a successful scan. -/
def checkinRowOf (now : Clock) (userId : String) : CheckinRow :=
  { user_id := userId
    check_date := now.localDate
    check_time := timeString now
    check_type := checkTypeOf (now.hours * 60 + now.minutes) }

def roomcheckinsPOST (C : Cipher) (key : List Nat)
    (parseJSON : List Nat → Option QRPayload)
    (now : Clock) (userId : String) (body : CheckinBody)
    (store : List CheckinRow) : HResp Bool × List CheckinRow :=
  match body.qrData with
  | none => (HResp.err "Bad_Request" "QR 데이터가 필요합니다." 400, store)
  | some qr =>
    match decrypt C key qr with
    | Except.error _ =>
      (HResp.err "Unauthorized" "유효하지 않은 QR코드" 401, store)
    | Except.ok decryptedBytes =>
      match parseJSON decryptedBytes with
      | none => (HResp.err "Unauthorized" "유효하지 않은 QR코드" 401, store)
      | some payload =>
        if payload.type ≠ "DOMICE" then
          (HResp.err "Unauthorized" "유효하지 않은 QR코드" 401, store)
        else if payload.date ≠ now.isoDate then
          (HResp.err "Forbidden" "만료된 QR코드" 403, store)
        else
          (HResp.ok true 201, store ++ [checkinRowOf now userId])

/-- A concrete `parseJSON` for counterexamples and witnesses. -/
def parseTable : List Nat → Option QRPayload :=
  fun bs =>
    if bs = [7] then some ⟨"2025-01-01", "WRONG", "n0"⟩
    else if bs = [8] then some ⟨"2025-01-02", "DOMICE", "n1"⟩
    else if bs = [9] then some ⟨"2025-01-02", "DOMICE", "n2"⟩
    else if bs = [10] then some ⟨"2025-01-01", "DOMICE", "n3"⟩
    else none

/-- A concrete clock: 2025-01-02, 16:30:00. -/
def clock0 : Clock :=
  { isoDate := "2025-01-02", localDate := "2025-01-02"
    hours := 16, minutes := 30, seconds := 0 }

/-! ## C4 — `POST /api/leave/check`

The staff decision endpoint, `src/unnamed/part_001` lines 1970-2012, with
the `requireTeacher` middleware (lines 1205-1210) inlined. The update
`update({status: approval ? 1 : 2}).eq('id', id)` is applied by the store
to every matching row with no condition on the current status; `.select()`
returns the updated rows and an empty result is the 404 path. -/

/-- A row of the `leave_requests` table
(`status`: 0 = pending default, 1 = approved, 2 = rejected). -/
structure LeaveRow where
  id : Nat
  user_id : String
  leave_date : String
  reason : String
  status : Nat
deriving DecidableEq, Repr

/-- The store-side effect of
`update({status: approval ? 1 : 2}).eq('id', id)`. -/
def leaveUpdate (reqId : Nat) (approval : Bool) (store : List LeaveRow) :
    List LeaveRow :=
  store.map fun r =>
    if r.id = reqId then { r with status := if approval then 1 else 2 } else r

def leaveCheckPOST (caller : AuthUser) (reqId : Nat) (approval : Bool)
    (store : List LeaveRow) : HResp String × List LeaveRow :=
  if caller.role ≠ "teacher" then
    (HResp.err "FORBIDDEN" "선생님만 이용할 수 있는 기능입니다." 403, store)
  else if ((leaveUpdate reqId approval store).filter
      fun r => r.id = reqId).length = 0 then
    (HResp.err "NOT_FOUND" "존재하지 않은 외출 신청건입니다." 404,
      leaveUpdate reqId approval store)
  else
    (HResp.ok "외출이 확인되었습니다." 200, leaveUpdate reqId approval store)

/-! ## C5 — `POST /api/stay`

The handler of `src/unnamed/part_001` lines 2019-2098 (the `src/server.js`
lines 677-756 version is identical logic with the local-date key instead of
`getThisFriday()`; `selectDate` is the computed date value in both). The
`maybeSingle()` fetch yields `null` on no row, the row on one row, and an
error (the 500 path) on several. `newId` is the id the store would assign
to an inserted row. -/

/-- A row of the `stay_status` table. -/
structure StayRow where
  id : Nat
  user_id : String
  select_date : String
  status : String
deriving DecidableEq, Repr

/-- The `.eq("user_id", user_id).eq("select_date", select_date)` filter. -/
def stayKey (userId selectDate : String) (r : StayRow) : Bool :=
  r.user_id == userId && r.select_date == selectDate

/-- Number of rows for one (user, selection date). -/
def stayCount (userId selectDate : String) (store : List StayRow) : Nat :=
  (store.filter (stayKey userId selectDate)).length

def stayPOST (userId : String) (status? : Option String) (selectDate : String)
    (newId : Nat) (store : List StayRow) :
    HResp (String × String) × List StayRow :=
  match status? with
  | none =>
    (HResp.err "BAD_REQUEST" "유효한 상태(status: OUT 또는 STAY)가 필요합니다." 400,
      store)
  | some status =>
    if status = "OUT" ∨ status = "STAY" then
      match store.filter (stayKey userId selectDate) with
      | [] =>
        (HResp.ok ("외박/잔류 상태가 저장되었습니다.", status) 200,
          store ++ [⟨newId, userId, selectDate, status⟩])
      | [existing] =>
        (HResp.ok ("외박/잔류 상태가 수정되었습니다.", status) 200,
          store.map fun r =>
            if r.id = existing.id then { r with status := status } else r)
      | _ =>
        (HResp.err "SERVER_ERROR" "외박/잔류 조회 중 오류가 발생했습니다." 500, store)
    else
      (HResp.err "BAD_REQUEST" "유효한 상태(status: OUT 또는 STAY)가 필요합니다." 400,
        store)

/-- One repeated identical submission step (the store after a call). -/
def stayStep (userId status selectDate : String) (newId : Nat)
    (store : List StayRow) : List StayRow :=
  (stayPOST userId (some status) selectDate newId store).2

/-! ## C6 — ownership checks

`PUT /api/posts/:postId` (`src/server.js` lines 498-550) and
`DELETE /api/inquires/:postId` (`src/unnamed/part_001` lines 2414-2464).
`postId?` is `Number(req.params.postId)` with `none` for `NaN`; the
pre-mutation `.single()` fetch errors (the 404 path) unless exactly one row
matches. -/

structure PostRow where
  id : Nat
  user_id : String
  title : String
  content : String
  is_secret : Bool
deriving DecidableEq, Repr

/-- The `updateFields` object: only fields present with the right JS type
are written. -/
structure PostUpdateBody where
  title : Option String
  content : Option String
  is_secret : Option Bool
deriving DecidableEq, Repr

def applyPostUpdate (b : PostUpdateBody) (r : PostRow) : PostRow :=
  { r with
    title := b.title.getD r.title
    content := b.content.getD r.content
    is_secret := b.is_secret.getD r.is_secret }

def putPostHandler (caller : AuthUser) (postId? : Option Nat)
    (body : PostUpdateBody) (store : List PostRow) :
    HResp Bool × List PostRow :=
  match postId? with
  | none => (HResp.err "BAD_REQUEST" "유효한 postId가 필요합니다." 400, store)
  | some postId =>
    match store.filter fun r => r.id == postId with
    | [post] =>
      if post.user_id ≠ caller.id then
        (HResp.err "FORBIDDEN" "본인이 작성한 게시글만 수정할 수 있습니다." 403, store)
      else
        (HResp.ok true 200,
          store.map fun r => if r.id = postId then applyPostUpdate body r else r)
    | _ => (HResp.err "NOT_FOUND" "수정할 게시글을 찾을 수 없습니다." 404, store)

structure InquiryRow where
  id : Nat
  user_id : String
  title : String
  content : String
  reply : Option String
deriving DecidableEq, Repr

def deleteInquiryHandler (caller : AuthUser) (postId? : Option Nat)
    (store : List InquiryRow) : HResp Bool × List InquiryRow :=
  match postId? with
  | none => (HResp.err "BAD_REQUEST" "유효한 postId가 필요합니다." 400, store)
  | some postId =>
    match store.filter fun r => r.id == postId with
    | [post] =>
      if post.user_id ≠ caller.id then
        (HResp.err "FORBIDDEN" "본인이 작성한 1대1 문의글만 삭제할 수 있습니다." 403,
          store)
      else
        (HResp.ok true 200, store.filter fun r => !(r.id == postId))
    | _ => (HResp.err "NOT_FOUND" "삭제할 1대1 문의글을 찾을 수 없습니다." 404, store)

/-! ## C7 — session layer

`authenticateToken` (`src/server.js` lines 97-112) and `generateToken`
(lines 123-133). The `jsonwebtoken` library (external) is an abstract
`Jwt` structure over the claim type `P`; `verify` returns `none` when
`jwt.verify` throws (bad signature, expiry, malformed token).
`accessTokenCookie` is `req.cookies.access_token`. -/

structure JwtSignOpts where
  expiresIn : String
  issuer : String
deriving DecidableEq, Repr

structure Jwt (P : Type) where
  sign : P → String → JwtSignOpts → String
  verify : String → String → Option P

/-- The options passed by `generateToken`. -/
def jwtOpts : JwtSignOpts := { expiresIn := "30d", issuer := "domice" }

def generateToken {P : Type} (J : Jwt P) (secret : String) (payload : P) :
    String :=
  J.sign payload secret jwtOpts

/-- Outcome of the middleware: pass the request on with `req.user` set, or
short-circuit with an error response. -/
inductive AuthOutcome (P : Type) where
  | proceed (user : P)
  | reject (code : String) (message : String) (status : Nat)
deriving DecidableEq, Repr

def authenticateToken {P : Type} (J : Jwt P) (secret : String)
    (accessTokenCookie : Option String) : AuthOutcome P :=
  match accessTokenCookie with
  | none => AuthOutcome.reject "Unauthorized" "로그인이 필요합니다." 401
  | some token =>
    match J.verify token secret with
    | some verified => AuthOutcome.proceed verified
    | none => AuthOutcome.reject "Forbidden" "유효하지 않거나 만료된 토큰입니다." 403

/-- A concrete `Jwt` over `Nat` claims satisfying the contract hypotheses
at the witness inputs. -/
def toyJwt : Jwt Nat where
  sign := fun p s _ => Nat.repr p ++ "." ++ s
  verify := fun t s => if t = "42." ++ s then some 42 else none

/-! ## C9 — `POST /api/auth/login` and `POST /api/auth/signup`

The final-snapshot handlers (`src/unnamed/part_001` lines 2553-2737). The
Google userinfo call (external) is the already-fetched `GoogleUser`; the
theorem's gate hypothesis states that it passed the e-mail gate. Only the
`profiles` columns consumed by these handlers are modelled (the
`stu_details` side table is not read by either). -/

structure GoogleUser where
  id : String
  email : String
  family_name : String
deriving DecidableEq, Repr

/-- A row of the `profiles` table (the columns written by signup). -/
structure Profile where
  id : String
  name : Option String
  gender : Option String
  email : Option String
  profile_img : Option String
  role : Option String
deriving DecidableEq, Repr

/-- The signup request body (the `stu_details` fields are not modelled). -/
structure SignupBody where
  id : Option String
  name : Option String
  gender : Option String
  email : Option String
  profile_img : Option String
  role : Option String
deriving DecidableEq, Repr

def authSignupPOST (body : SignupBody) (profiles : List Profile) :
    HResp (List Profile) × List Profile :=
  match body.id with
  | none => (HResp.err "BAD_REQUEST" "유저 ID 정보가 필요합니다." 400, profiles)
  | some id =>
    (HResp.ok [⟨id, body.name, body.gender, body.email, body.profile_img,
        body.role⟩] 201,
      profiles ++ [⟨id, body.name, body.gender, body.email, body.profile_img,
        body.role⟩])

/-- JS `email.split("@")[1]` (may be `undefined`). -/
def emailDomain (email : String) : Option String :=
  match (splitOnChar '@' email.data).get? 1 with
  | some l => some (String.mk l)
  | none => none

/-- The login response payload (`userData` after the handler's
assignments). -/
structure LoginData where
  id : String
  email : String
  family_name : String
  role : String
  stu_num : Option String
  join : Bool
deriving DecidableEq, Repr

/-- The tail of the login handler after role/stu_num derivation: profile
lookup, `join` flag, `role = dbUser?.role || userData.role`. -/
def loginRespond (ext : GoogleUser) (role0 : String) (stu_num : Option String)
    (profiles : List Profile) : HResp LoginData :=
  let rows := profiles.filter fun p => p.id == ext.id
  HResp.ok
    { id := ext.id, email := ext.email, family_name := ext.family_name
      role := jsOrStr (rows.head?.bind Profile.role) role0
      stu_num := stu_num, join := !rows.isEmpty } 200

def authLoginPOST (ext : GoogleUser) (profiles : List Profile) :
    HResp LoginData :=
  if ext.email = "kjt081025@gmail.com" then
    loginRespond ext "teacher" none profiles
  else if emailDomain ext.email ≠ some "e-mirim.hs.kr" then
    HResp.err "Forbiddena" "미림마이스터고등학교 구글 계정만 가능합니다." 403
  else
    loginRespond ext "student" (some (ext.family_name.take 4)) profiles

/-- The role the handler derives from the e-mail (before any stored role
overrides it). -/
def emailRole (ext : GoogleUser) : String :=
  if ext.email = "kjt081025@gmail.com" then "teacher" else "student"

/-- The `stu_num` the handler derives from the e-mail branch. -/
def emailStuNum (ext : GoogleUser) : Option String :=
  if ext.email = "kjt081025@gmail.com" then none
  else some (ext.family_name.take 4)

end Domice

namespace Domice

/-! ## Helper lemmas -/

theorem hexDigitVal_hexDigitChar (n : Nat) (h : n < 16) :
    hexDigitVal (hexDigitChar n) = some n := by
  interval_cases n <;> rfl

theorem hexDigitChar_ne_colon (n : Nat) (h : n < 16) : hexDigitChar n ≠ ':' := by
  interval_cases n <;> decide

theorem hexDecode_hexEncode (bs : List Nat) (h : ∀ b ∈ bs, b < 256) :
    hexDecode (hexEncode bs) = bs := by
  induction bs with
  | nil => rfl
  | cons b bs ih =>
    have hb : b < 256 := h b (List.mem_cons_self b bs)
    have hhi : b / 16 < 16 := (Nat.div_lt_iff_lt_mul (by norm_num)).mpr hb
    have hlo : b % 16 < 16 := Nat.mod_lt _ (by norm_num)
    show hexDecode (byteToHex b ++ hexEncode bs) = b :: bs
    simp only [byteToHex, List.cons_append, List.nil_append, hexDecode,
      hexDigitVal_hexDigitChar _ hhi, hexDigitVal_hexDigitChar _ hlo]
    show (16 * (b / 16) + b % 16) :: hexDecode (hexEncode bs) = b :: bs
    rw [ih (fun x hx => h x (List.mem_cons_of_mem b hx))]
    congr 1
    omega

theorem hexEncode_ne_colon (bs : List Nat) (h : ∀ b ∈ bs, b < 256) :
    ∀ c ∈ hexEncode bs, c ≠ ':' := by
  induction bs with
  | nil => intro c hc; cases hc
  | cons b bs ih =>
    intro c hc
    have hb : b < 256 := h b (List.mem_cons_self b bs)
    have hbs := ih (fun x hx => h x (List.mem_cons_of_mem b hx))
    simp only [hexEncode, byteToHex, List.cons_append, List.nil_append,
      List.mem_cons] at hc
    rcases hc with rfl | rfl | hc
    · exact hexDigitChar_ne_colon _ ((Nat.div_lt_iff_lt_mul (by norm_num)).mpr hb)
    · exact hexDigitChar_ne_colon _ (Nat.mod_lt _ (by norm_num))
    · exact hbs c hc

theorem splitOnChar_ne_nil (sep : Char) (l : List Char) : splitOnChar sep l ≠ [] := by
  induction l with
  | nil => simp [splitOnChar]
  | cons c cs ih =>
    simp only [splitOnChar]
    cases hcs : splitOnChar sep cs with
    | nil => exact absurd hcs ih
    | cons p ps =>
      by_cases hc : c = sep <;> simp [hc]

theorem splitOnChar_no_sep (sep : Char) (l : List Char) (h : ∀ c ∈ l, c ≠ sep) :
    splitOnChar sep l = [l] := by
  induction l with
  | nil => rfl
  | cons c cs ih =>
    have hcs := ih (fun x hx => h x (List.mem_cons_of_mem c hx))
    have hc : c ≠ sep := h c (List.mem_cons_self c cs)
    simp [splitOnChar, hcs, hc]

theorem splitOnChar_append (sep : Char) (a b : List Char) (ha : ∀ c ∈ a, c ≠ sep) :
    splitOnChar sep (a ++ sep :: b) = a :: splitOnChar sep b := by
  induction a with
  | nil =>
    show splitOnChar sep (sep :: b) = [] :: splitOnChar sep b
    simp only [splitOnChar]
    cases hb : splitOnChar sep b with
    | nil => exact absurd hb (splitOnChar_ne_nil sep b)
    | cons p ps => simp
  | cons c a ih =>
    have hc : c ≠ sep := ha c (List.mem_cons_self c a)
    have ih' := ih (fun x hx => ha x (List.mem_cons_of_mem c hx))
    show splitOnChar sep (c :: (a ++ sep :: b)) = (c :: a) :: splitOnChar sep b
    simp [splitOnChar, ih', hc]

theorem splitOnChar_encrypt (C : Cipher) (key iv pt : List Nat)
    (hiv : ∀ b ∈ iv, b < 256) (hct : ∀ b ∈ C.enc key iv pt, b < 256) :
    splitOnChar ':' (encrypt C key iv pt) =
      [hexEncode iv, hexEncode (C.enc key iv pt)] := by
  unfold encrypt
  rw [splitOnChar_append ':' _ _ (hexEncode_ne_colon iv hiv),
    splitOnChar_no_sep ':' _ (hexEncode_ne_colon _ hct)]

theorem decrypt_encrypt_eq (C : Cipher) (key key2 iv pt : List Nat)
    (hiv : ∀ b ∈ iv, b < 256) (hct : ∀ b ∈ C.enc key iv pt, b < 256) :
    decrypt C key2 (encrypt C key iv pt) =
      match C.dec key2 iv (C.enc key iv pt) with
      | some d => Except.ok d
      | none => Except.error "decipher failed" := by
  unfold decrypt
  rw [splitOnChar_encrypt C key iv pt hiv hct]
  simp only [joinWithChar, hexDecode_hexEncode iv hiv, hexDecode_hexEncode _ hct]

/-! ## Claim theorems -/

/-- C8: for every value of the `limit` query parameter (modelled as its JS
number value, `none` = `NaN`) the limit passed to the store is at most 50,
and when the parameter is absent (`Number(undefined) = NaN`) it is exactly
20. -/
theorem C8_limit_cap (raw : Option Int) :
    queryLimitCap raw ≤ 50 ∧ queryLimitCap none = 20 := by
  exact ⟨min_le_right _ _, rfl⟩

/-- C3: the check-in time classifier is a total function of the
minute-of-day value alone; for every `m` exactly one of the five categories
matches, and the boundaries 960, 990, 1100, 1230 are closed on the right
side only (959 ↦ EARLY but 960 ↦ AFTER_SCHOOL, and so on). -/
theorem C3_classifier_partition (m : Nat) :
    (checkTypes.filter (fun c => checkTypeOf m = c)).length = 1 ∧
    checkTypeOf 959 = "EARLY" ∧
    checkTypeOf 960 = "AFTER_SCHOOL" ∧
    checkTypeOf 989 = "AFTER_SCHOOL" ∧
    checkTypeOf 990 = "AFTER_DINNER" ∧
    checkTypeOf 1099 = "AFTER_DINNER" ∧
    checkTypeOf 1100 = "RETURN_8PM" ∧
    checkTypeOf 1229 = "RETURN_8PM" ∧
    checkTypeOf 1230 = "LATE" := by
  refine ⟨?_, rfl, rfl, rfl, rfl, rfl, rfl, rfl, rfl⟩
  unfold checkTypeOf
  split
  · rfl
  split
  · rfl
  split
  · rfl
  split
  · rfl
  · rfl

/-- C2: with the cipher contract as hypotheses (same-key deciphering
inverts enciphering at this input; a different key fails to recover the
plaintext there), the wire-format round trip holds: `decrypt` after
`encrypt` under the same key returns the original plaintext, under the
other key it never returns the original plaintext, and on any input with
fewer than two colon-separated parts `decrypt` fails with the
`Invalid QR Format` decoding error. -/
theorem C2_qr_codec_roundtrip (C : Cipher) (key key2 iv pt : List Nat)
    (u : List Char)
    (hiv : ∀ b ∈ iv, b < 256)
    (hct : ∀ b ∈ C.enc key iv pt, b < 256)
    (hdec : C.dec key iv (C.enc key iv pt) = some pt)
    (hdec2 : C.dec key2 iv (C.enc key iv pt) ≠ some pt)
    (hu : (splitOnChar ':' u).length < 2) :
    decrypt C key (encrypt C key iv pt) = Except.ok pt ∧
    decrypt C key2 (encrypt C key iv pt) ≠ Except.ok pt ∧
    decrypt C key u = Except.error "Invalid QR Format" := by
  refine ⟨?_, ?_, ?_⟩
  · rw [decrypt_encrypt_eq C key key iv pt hiv hct, hdec]
  · rw [decrypt_encrypt_eq C key key2 iv pt hiv hct]
    cases h2 : C.dec key2 iv (C.enc key iv pt) with
    | none => simp
    | some d =>
      simp only [ne_eq, Except.ok.injEq]
      intro hd
      exact hdec2 (by rw [h2, hd])
  · unfold decrypt
    cases hsp : splitOnChar ':' u with
    | nil => exact absurd hsp (splitOnChar_ne_nil ':' u)
    | cons p ps =>
      cases ps with
      | nil => rfl
      | cons q rest =>
        rw [hsp] at hu
        simp only [List.length_cons] at hu
        exact absurd hu (by omega)

/-- Witness for C2 at concrete inputs: the `addCipher` instance, key `[1]`
versus `[2]`, IV `[7]`, plaintext `[5]`, and the colon-free malformed
input `"abc"`. -/
theorem C2_qr_codec_roundtrip_witness :
    decrypt addCipher [1] (encrypt addCipher [1] [7] [5]) = Except.ok [5] ∧
    decrypt addCipher [2] (encrypt addCipher [1] [7] [5]) ≠ Except.ok [5] ∧
    decrypt addCipher [1] ['a', 'b', 'c'] = Except.error "Invalid QR Format" :=
  C2_qr_codec_roundtrip addCipher [1] [2] [7] [5] ['a', 'b', 'c']
    (by decide) (by decide) (by decide) (by decide) (by decide)

/-- C1 counterexample: a QR payload that decrypts and parses, whose
embedded date (2025-01-01) differs from the server's current date
(2025-01-02) but whose type marker is not DOMICE, is rejected with the 401
"invalid QR" error — not the 403 "expired" error the claim requires. (No
row is inserted on this path either.) -/
theorem C1_counterexample :
    decrypt addCipher [1] (encrypt addCipher [1] [3] [7]) = Except.ok [7] ∧
    parseTable [7] = some ⟨"2025-01-01", "WRONG", "n0"⟩ ∧
    "2025-01-01" ≠ clock0.isoDate ∧
    roomcheckinsPOST addCipher [1] parseTable clock0 "u1"
        ⟨some (encrypt addCipher [1] [3] [7]), none⟩ [] =
      (HResp.err "Unauthorized" "유효하지 않은 QR코드" 401, []) ∧
    (HResp.err "Unauthorized" "유효하지 않은 QR코드" 401 : HResp Bool) ≠
      HResp.err "Forbidden" "만료된 QR코드" 403 := by
  refine ⟨by rfl, by rfl, by decide, by rfl, by decide⟩

/-- C1 (amended): if the submitted QR data decrypts and parses, its type
marker is DOMICE, and its embedded date differs from the server's current
date, the request is rejected with the 403 expired error and no row is
inserted (the store is unchanged); a payload with an invalid marker is
instead rejected 401, also without any insert. -/
theorem C1_expired_qr_rejected (C : Cipher) (key : List Nat)
    (parseJSON : List Nat → Option QRPayload) (now : Clock) (userId : String)
    (body : CheckinBody) (store : List CheckinRow)
    (qr : List Char) (bytes : List Nat) (payload : QRPayload)
    (hqr : body.qrData = some qr)
    (hdec : decrypt C key qr = Except.ok bytes)
    (hparse : parseJSON bytes = some payload)
    (htype : payload.type = "DOMICE")
    (hdate : payload.date ≠ now.isoDate) :
    roomcheckinsPOST C key parseJSON now userId body store =
      (HResp.err "Forbidden" "만료된 QR코드" 403, store) := by
  simp [roomcheckinsPOST, hqr, hdec, hparse, htype, hdate]

/-- Witness for C1 (amended): a DOMICE payload dated 2025-01-01 scanned on
2025-01-02 gets the 403 expired error and the store stays empty. -/
theorem C1_expired_qr_rejected_witness :
    roomcheckinsPOST addCipher [1] parseTable clock0 "u1"
        ⟨some (encrypt addCipher [1] [3] [10]), none⟩ [] =
      (HResp.err "Forbidden" "만료된 QR코드" 403, []) :=
  C1_expired_qr_rejected addCipher [1] parseTable clock0 "u1"
    ⟨some (encrypt addCipher [1] [3] [10]), none⟩ []
    (encrypt addCipher [1] [3] [10]) [10] ⟨"2025-01-01", "DOMICE", "n3"⟩
    rfl (by rfl) (by rfl) rfl (by decide)

/-- C10: on a successful scan the inserted row is computed solely from the
server clock and the authenticated user: any two request bodies whose
`qrData` both pass validation (decrypt, parse, DOMICE marker, today's
date) produce identical responses and identical stores — the row appended
is exactly `checkinRowOf now userId`, so a `check_type` field supplied in
the body has no influence on what is stored. -/
theorem C10_insert_depends_only_on_clock (C : Cipher) (key : List Nat)
    (parseJSON : List Nat → Option QRPayload) (now : Clock) (userId : String)
    (body1 body2 : CheckinBody) (store : List CheckinRow)
    (qr1 qr2 : List Char) (bytes1 bytes2 : List Nat)
    (payload1 payload2 : QRPayload)
    (hqr1 : body1.qrData = some qr1)
    (hdec1 : decrypt C key qr1 = Except.ok bytes1)
    (hparse1 : parseJSON bytes1 = some payload1)
    (htype1 : payload1.type = "DOMICE")
    (hdate1 : payload1.date = now.isoDate)
    (hqr2 : body2.qrData = some qr2)
    (hdec2 : decrypt C key qr2 = Except.ok bytes2)
    (hparse2 : parseJSON bytes2 = some payload2)
    (htype2 : payload2.type = "DOMICE")
    (hdate2 : payload2.date = now.isoDate) :
    roomcheckinsPOST C key parseJSON now userId body1 store =
      (HResp.ok true 201, store ++ [checkinRowOf now userId]) ∧
    roomcheckinsPOST C key parseJSON now userId body1 store =
      roomcheckinsPOST C key parseJSON now userId body2 store := by
  have e1 : roomcheckinsPOST C key parseJSON now userId body1 store =
      (HResp.ok true 201, store ++ [checkinRowOf now userId]) := by
    simp [roomcheckinsPOST, hqr1, hdec1, hparse1, htype1, hdate1]
  have e2 : roomcheckinsPOST C key parseJSON now userId body2 store =
      (HResp.ok true 201, store ++ [checkinRowOf now userId]) := by
    simp [roomcheckinsPOST, hqr2, hdec2, hparse2, htype2, hdate2]
  exact ⟨e1, e1.trans e2.symm⟩

/-- Witness for C10: two bodies with different valid `qrData` and different
client-supplied `check_type` fields produce the very same inserted row. -/
theorem C10_insert_depends_only_on_clock_witness :
    roomcheckinsPOST addCipher [1] parseTable clock0 "u1"
        ⟨some (encrypt addCipher [1] [3] [8]), some "AFTER_8PM"⟩ [] =
      (HResp.ok true 201, [checkinRowOf clock0 "u1"]) ∧
    roomcheckinsPOST addCipher [1] parseTable clock0 "u1"
        ⟨some (encrypt addCipher [1] [3] [8]), some "AFTER_8PM"⟩ [] =
      roomcheckinsPOST addCipher [1] parseTable clock0 "u1"
        ⟨some (encrypt addCipher [1] [3] [9]), none⟩ [] :=
  C10_insert_depends_only_on_clock addCipher [1] parseTable clock0 "u1"
    ⟨some (encrypt addCipher [1] [3] [8]), some "AFTER_8PM"⟩
    ⟨some (encrypt addCipher [1] [3] [9]), none⟩ []
    (encrypt addCipher [1] [3] [8]) (encrypt addCipher [1] [3] [9]) [8] [9]
    ⟨"2025-01-02", "DOMICE", "n1"⟩ ⟨"2025-01-02", "DOMICE", "n2"⟩
    rfl (by rfl) (by rfl) rfl rfl
    rfl (by rfl) (by rfl) rfl rfl

/-- C4 counterexample: an already-approved leave request (status 1) is
re-decided by a second call to the decision endpoint and becomes rejected
(status 2) — contradicting "once decided, no further status transition is
possible": the handler updates the status with no condition on the current
status. -/
theorem C4_counterexample :
    (leaveCheckPOST ⟨"t1", "teacher", none⟩ 1 false
        [⟨1, "u1", "2025-01-03", "reason", 1⟩]).2 =
      [⟨1, "u1", "2025-01-03", "reason", 2⟩] ∧
    (1 : Nat) ≠ 2 := by
  refine ⟨by decide, by decide⟩

/-- C4 (amended): status is decided exclusively by staff through the single
decision endpoint — a non-teacher caller gets a 403 and the store is
unchanged — and a teacher's decision sets the status of every row with the
given id to approved (1) if `approval` is truthy and rejected (2)
otherwise, regardless of the row's current status (so a decided request
can be re-decided), leaving all other rows unchanged; no call ever sets a
status back to pending. -/
theorem C4_decision_endpoint (caller : AuthUser) (reqId : Nat)
    (approval : Bool) (store : List LeaveRow) :
    (caller.role ≠ "teacher" →
      leaveCheckPOST caller reqId approval store =
        (HResp.err "FORBIDDEN" "선생님만 이용할 수 있는 기능입니다." 403, store)) ∧
    (caller.role = "teacher" →
      (leaveCheckPOST caller reqId approval store).2 =
        store.map fun r =>
          if r.id = reqId then { r with status := if approval then 1 else 2 }
          else r) ∧
    (∀ r ∈ (leaveCheckPOST caller reqId approval store).2,
      r ∈ store ∨ r.status = 1 ∨ r.status = 2) := by
  refine ⟨fun h => by simp [leaveCheckPOST, h], fun h => ?_, fun r hr => ?_⟩
  · unfold leaveCheckPOST
    rw [if_neg (by simp [h])]
    split <;> rfl
  · by_cases h : caller.role = "teacher"
    · unfold leaveCheckPOST at hr
      rw [if_neg (by simp [h])] at hr
      have hr2 : r ∈ leaveUpdate reqId approval store := by
        revert hr
        split <;> exact fun hr => hr
      unfold leaveUpdate at hr2
      rcases List.mem_map.mp hr2 with ⟨s, hs, hsr⟩
      by_cases hid : s.id = reqId
      · right
        rw [← hsr]
        simp only [hid, if_true, ite_true]
        cases approval <;> simp
      · left
        rw [← hsr]
        simp only [hid, if_false, ite_false]
        exact hs
    · unfold leaveCheckPOST at hr
      rw [if_pos h] at hr
      exact Or.inl hr

/-- Witness for C4 (amended): a student caller is rejected 403 with the
store unchanged; a teacher's approval sets the pending row to approved. -/
theorem C4_decision_endpoint_witness :
    leaveCheckPOST ⟨"s1", "student", none⟩ 1 true
        [⟨1, "u1", "2025-01-03", "reason", 0⟩] =
      (HResp.err "FORBIDDEN" "선생님만 이용할 수 있는 기능입니다." 403,
        [⟨1, "u1", "2025-01-03", "reason", 0⟩]) ∧
    (leaveCheckPOST ⟨"t1", "teacher", none⟩ 1 true
        [⟨1, "u1", "2025-01-03", "reason", 0⟩]).2 =
      [⟨1, "u1", "2025-01-03", "reason", 1⟩] := by
  refine ⟨(C4_decision_endpoint ⟨"s1", "student", none⟩ 1 true _).1 (by decide), ?_⟩
  rw [(C4_decision_endpoint ⟨"t1", "teacher", none⟩ 1 true
    [⟨1, "u1", "2025-01-03", "reason", 0⟩]).2.1 rfl]
  decide

/-- Mapping a function over a list leaves the length of a filtered sublist
unchanged when the predicate is invariant under the function. -/
theorem length_filter_map_of_pres {α : Type} (f : α → α) (p : α → Bool)
    (hp : ∀ r, p (f r) = p r) (l : List α) :
    ((l.map f).filter p).length = (l.filter p).length := by
  induction l with
  | nil => rfl
  | cons a l ih =>
    simp only [List.map_cons, List.filter_cons, hp]
    cases hpa : p a <;> simp [ih]

/-- A stay submission with a valid status leaves exactly one row for the
(user, selection date) whenever there was at most one before. -/
theorem stayPOST_count_one (userId status selectDate : String) (newId : Nat)
    (store : List StayRow) (hst : status = "OUT" ∨ status = "STAY")
    (hcount : stayCount userId selectDate store ≤ 1) :
    stayCount userId selectDate
      (stayStep userId status selectDate newId store) = 1 := by
  simp only [stayStep, stayPOST]
  rw [if_pos hst]
  cases hf : store.filter (stayKey userId selectDate) with
  | nil =>
    show stayCount userId selectDate
      (store ++ [⟨newId, userId, selectDate, status⟩]) = 1
    unfold stayCount
    rw [List.filter_append, hf]
    simp [stayKey]
  | cons e rest =>
    cases rest with
    | nil =>
      show stayCount userId selectDate
        (store.map fun r =>
          if r.id = e.id then { r with status := status } else r) = 1
      unfold stayCount
      rw [length_filter_map_of_pres _ _ ?hp store]
      case hp =>
        intro r
        by_cases hid : r.id = e.id <;> simp [hid, stayKey]
      rw [hf]
      rfl
    | cons e2 rest2 =>
      exfalso
      unfold stayCount at hcount
      rw [hf] at hcount
      simp at hcount

/-- C5: stay-status submission is idempotent per (user, selection date):
starting from a store with at most one row for that key, a submission with
a valid status leaves exactly one row; if a row already existed, the store
keeps its length (the row is updated in place, no duplicate inserted); and
after any positive number of repeated identical submissions exactly one row
for the key remains. -/
theorem C5_stay_idempotent (userId status selectDate : String) (newId : Nat)
    (store : List StayRow) (hst : status = "OUT" ∨ status = "STAY")
    (hcount : stayCount userId selectDate store ≤ 1) :
    stayCount userId selectDate
      (stayStep userId status selectDate newId store) = 1 ∧
    (stayCount userId selectDate store = 1 →
      (stayStep userId status selectDate newId store).length = store.length) ∧
    ∀ n : Nat, stayCount userId selectDate
      ((stayStep userId status selectDate newId)^[n + 1] store) = 1 := by
  refine ⟨stayPOST_count_one userId status selectDate newId store hst hcount,
    ?_, ?_⟩
  · intro h1
    simp only [stayStep, stayPOST]
    rw [if_pos hst]
    unfold stayCount at h1
    cases hf : store.filter (stayKey userId selectDate) with
    | nil => rw [hf] at h1; simp at h1
    | cons e rest =>
      cases rest with
      | nil =>
        show (store.map fun r =>
          if r.id = e.id then { r with status := status } else r).length =
            store.length
        exact List.length_map store _
      | cons e2 rest2 => rfl
  · intro n
    induction n with
    | zero =>
      rw [Function.iterate_one]
      exact stayPOST_count_one userId status selectDate newId store hst hcount
    | succ n ih =>
      rw [Function.iterate_succ_apply']
      exact stayPOST_count_one userId status selectDate newId _ hst ih.le

/-- Witness for C5: submitting OUT to an empty store yields one row; three
repeated identical submissions still leave exactly one row. -/
theorem C5_stay_idempotent_witness :
    stayCount "u1" "2025-01-03"
      (stayStep "u1" "OUT" "2025-01-03" 1 []) = 1 ∧
    stayCount "u1" "2025-01-03"
      ((stayStep "u1" "OUT" "2025-01-03" 1)^[3] []) = 1 :=
  ⟨(C5_stay_idempotent "u1" "OUT" "2025-01-03" 1 [] (Or.inl rfl)
      (by decide)).1,
    (C5_stay_idempotent "u1" "OUT" "2025-01-03" 1 [] (Or.inl rfl)
      (by decide)).2.2 2⟩

/-- C6: an authenticated caller who does not own the row and is not a
teacher gets a 403 forbidden error from post edit and inquiry delete, and
the store is unchanged (no silent success, no mutation): the handlers
re-fetch the owning row and compare its `user_id` with the caller id. -/
theorem C6_ownership_forbidden (caller : AuthUser) (pid : Nat)
    (body : PostUpdateBody) (posts : List PostRow) (inqs : List InquiryRow)
    (post : PostRow) (inq : InquiryRow)
    (hpost : (posts.filter fun r => r.id == pid) = [post])
    (hinq : (inqs.filter fun r => r.id == pid) = [inq])
    (hop : post.user_id ≠ caller.id)
    (hoi : inq.user_id ≠ caller.id)
    (hrole : caller.role ≠ "teacher") :
    putPostHandler caller (some pid) body posts =
      (HResp.err "FORBIDDEN" "본인이 작성한 게시글만 수정할 수 있습니다." 403,
        posts) ∧
    deleteInquiryHandler caller (some pid) inqs =
      (HResp.err "FORBIDDEN" "본인이 작성한 1대1 문의글만 삭제할 수 있습니다." 403,
        inqs) := by
  constructor
  · simp [putPostHandler, hpost, hop]
  · simp [deleteInquiryHandler, hinq, hoi]

/-- Witness for C6: a non-owning student caller gets 403 from both
handlers and both stores are untouched. -/
theorem C6_ownership_forbidden_witness :
    putPostHandler ⟨"other", "student", none⟩ (some 1) ⟨none, none, none⟩
        [⟨1, "owner", "t", "c", false⟩] =
      (HResp.err "FORBIDDEN" "본인이 작성한 게시글만 수정할 수 있습니다." 403,
        [⟨1, "owner", "t", "c", false⟩]) ∧
    deleteInquiryHandler ⟨"other", "student", none⟩ (some 1)
        [⟨1, "owner", "t", "c", none⟩] =
      (HResp.err "FORBIDDEN" "본인이 작성한 1대1 문의글만 삭제할 수 있습니다." 403,
        [⟨1, "owner", "t", "c", none⟩]) :=
  C6_ownership_forbidden ⟨"other", "student", none⟩ 1 ⟨none, none, none⟩
    [⟨1, "owner", "t", "c", false⟩] [⟨1, "owner", "t", "c", none⟩]
    ⟨1, "owner", "t", "c", false⟩ ⟨1, "owner", "t", "c", none⟩
    (by decide) (by decide) (by decide) (by decide) (by decide)

/-- C7: the session layer reads the token from the `access_token` cookie:
absent cookie gives the 401 Unauthorized error; a token whose verification
fails (bad signature or expired) gives the 403 Forbidden error; a token
issued by `generateToken` and verified under the same secret attaches
exactly the signed claims to the request; a token signed under a different
secret is rejected 403. The `jsonwebtoken` contract (verify inverts sign
under the same secret; verification fails under another secret) appears as
hypotheses on the abstract `Jwt`. -/
theorem C7_session_layer {P : Type} (J : Jwt P) (secret secret2 : String)
    (payload : P) (badtok : String)
    (h1 : J.verify badtok secret = none)
    (h2 : J.verify (J.sign payload secret jwtOpts) secret = some payload)
    (h3 : J.verify (J.sign payload secret2 jwtOpts) secret = none) :
    authenticateToken J secret none =
      AuthOutcome.reject "Unauthorized" "로그인이 필요합니다." 401 ∧
    authenticateToken J secret (some badtok) =
      AuthOutcome.reject "Forbidden" "유효하지 않거나 만료된 토큰입니다." 403 ∧
    authenticateToken J secret (some (generateToken J secret payload)) =
      AuthOutcome.proceed payload ∧
    authenticateToken J secret (some (generateToken J secret2 payload)) =
      AuthOutcome.reject "Forbidden" "유효하지 않거나 만료된 토큰입니다." 403 := by
  refine ⟨rfl, ?_, ?_, ?_⟩
  · simp [authenticateToken, h1]
  · simp [authenticateToken, generateToken, h2]
  · simp [authenticateToken, generateToken, h3]

/-- Witness for C7 with the concrete `toyJwt`, secrets k1/k2, claims 42 and
the garbage token zzz. -/
theorem C7_session_layer_witness :
    authenticateToken toyJwt "k1" none =
      AuthOutcome.reject "Unauthorized" "로그인이 필요합니다." 401 ∧
    authenticateToken toyJwt "k1" (some "zzz") =
      AuthOutcome.reject "Forbidden" "유효하지 않거나 만료된 토큰입니다." 403 ∧
    authenticateToken toyJwt "k1" (some (generateToken toyJwt "k1" 42)) =
      AuthOutcome.proceed 42 ∧
    authenticateToken toyJwt "k1" (some (generateToken toyJwt "k2" 42)) =
      AuthOutcome.reject "Forbidden" "유효하지 않거나 만료된 토큰입니다." 403 :=
  C7_session_layer toyJwt "k1" "k2" 42 "zzz" (by decide) (by decide) (by decide)

/-- C9: a login whose e-mail passes the gate and whose id has no stored
profile row answers `join:false` (with the e-mail-derived role); after a
sign-up that stored role `r` for that id, a second login answers
`join:true` and returns the stored role `r`. -/
theorem C9_login_join_flow (ext : GoogleUser) (profiles : List Profile)
    (sb : SignupBody) (r : String)
    (hgate : ext.email = "kjt081025@gmail.com" ∨
      emailDomain ext.email = some "e-mirim.hs.kr")
    (h0 : (profiles.filter fun p => p.id == ext.id) = [])
    (hsbid : sb.id = some ext.id)
    (hsbrole : sb.role = some r) (hr : r ≠ "") :
    authLoginPOST ext profiles =
      HResp.ok ⟨ext.id, ext.email, ext.family_name, emailRole ext,
        emailStuNum ext, false⟩ 200 ∧
    authLoginPOST ext (authSignupPOST sb profiles).2 =
      HResp.ok ⟨ext.id, ext.email, ext.family_name, r,
        emailStuNum ext, true⟩ 200 := by
  have hbranch : ∀ ps, authLoginPOST ext ps =
      loginRespond ext (emailRole ext) (emailStuNum ext) ps := by
    intro ps
    unfold authLoginPOST emailRole emailStuNum
    by_cases hsp : ext.email = "kjt081025@gmail.com"
    · simp [hsp]
    · rcases hgate with hg | hg
      · exact absurd hg hsp
      · simp [hsp, hg]
  have hstore2 : (authSignupPOST sb profiles).2 = profiles ++
      [⟨ext.id, sb.name, sb.gender, sb.email, sb.profile_img, sb.role⟩] := by
    unfold authSignupPOST
    rw [hsbid]
  constructor
  · rw [hbranch]
    simp [loginRespond, h0, jsOrStr]
  · rw [hbranch, hstore2]
    simp [loginRespond, List.filter_append, h0, List.filter_cons,
      List.filter_nil, hsbrole, jsOrStr, hr]

/-- Witness for C9: a fresh e-mirim account sees `join:false`; after
signing up with role student, the second login sees `join:true` and the
stored role. -/
theorem C9_login_join_flow_witness :
    authLoginPOST ⟨"g1", "kim@e-mirim.hs.kr", "20101kim"⟩ [] =
      HResp.ok ⟨"g1", "kim@e-mirim.hs.kr", "20101kim", "student",
        some "2010", false⟩ 200 ∧
    authLoginPOST ⟨"g1", "kim@e-mirim.hs.kr", "20101kim"⟩
        (authSignupPOST ⟨some "g1", none, none, none, none, some "student"⟩
          []).2 =
      HResp.ok ⟨"g1", "kim@e-mirim.hs.kr", "20101kim", "student",
        some "2010", true⟩ 200 :=
  C9_login_join_flow ⟨"g1", "kim@e-mirim.hs.kr", "20101kim"⟩ []
    ⟨some "g1", none, none, none, none, some "student"⟩ "student"
    (Or.inr (by decide)) (by decide) rfl rfl (by decide)

end Domice
